import Mathlib

/-!
Verification of the lims-hsv-system ROI-tracking repository.

Shallow embedding of the coordinate-transform pipeline
(`src/LEDTracker/tdah/core/dot_coords.cpp`, `src/SimpleTracking/skeleton.cpp`),
the Kalman motion predictor (`src/LEDTracker/xtal_ball.cpp`) and the
chessboard calibration-view collection
(`src/trunk/TDah/Calibration/views_chessbd.cpp`).  Machine floats are
idealised as exact rationals; OpenCV matrix containers become functions
`Fin n → ℚ` and `Matrix (Fin m) (Fin n) ℚ`.
-/

/- ## Camera model (dot_coords.cpp) -/

/-- Camera model as loaded by `setup_world_frame` (dot_coords.cpp lines 11-36):
intrinsic matrix `A` and distortion vector `k` enter only through the library
routine `cvUndistortPoints(·, A, k)`, abstracted here as the field `undistort`
(pixel ↦ normalized ray direction).  The field `distort` is the forward lens
map (normalized direction ↦ pixel) of the same `A`, `k` — the map that
`cvProjectPoints2` applies; it is used only by the spec-modelled
`worldToPixel` below, never by the code translated from src/. -/
structure CameraModel where
  undistort : ℚ × ℚ → ℚ × ℚ
  distort : ℚ × ℚ → ℚ × ℚ
  R : Matrix (Fin 3) (Fin 3) ℚ
  T : Fin 3 → ℚ

/-- Embedding of `cvSub(a, b, dst)` on 3×1 `CV_32FC1` matrices: elementwise
difference (dot_coords.cpp line 51). -/
def cvSub3 (a b : Fin 3 → ℚ) : Fin 3 → ℚ :=
  fun i => a i - b i

/-- Embedding of `cvGEMM(A, v, 1, NULL, 0, dst, CV_GEMM_A_T)` on a 3×3 matrix
and a 3×1 vector: `dst = Aᵀ · v`, written entrywise as the generalized
matrix-multiply routine computes it (dot_coords.cpp line 52). -/
def cvGEMM_AT (A : Matrix (Fin 3) (Fin 3) ℚ) (v : Fin 3 → ℚ) : Fin 3 → ℚ :=
  fun i => ∑ j, A j i * v j

/-- The full 3×1 `world` vector computed inside `pixel2world`
(dot_coords.cpp lines 43-52): undistort the pixel, scale the normalized
direction by the known depth `z`, append `z`, subtract the translation and
apply the transposed rotation. -/
def pixel2worldVec (cm : CameraModel) (p : ℚ × ℚ) (z : ℚ) : Fin 3 → ℚ :=
  let n := cm.undistort p
  let world : Fin 3 → ℚ := ![z * n.1, z * n.2, z]
  cvGEMM_AT cm.R (cvSub3 world cm.T)

/-- Embedding of `pixel2world` (dot_coords.cpp lines 38-58): the returned
`CvPoint2D32f` holds the first two components of the `world` vector. -/
def pixel2world (cm : CameraModel) (p : ℚ × ℚ) (z : ℚ) : ℚ × ℚ :=
  (pixel2worldVec cm p z 0, pixel2worldVec cm p z 1)

/-- The composition described by the spec for `pixelToWorld` (spec section 4.1):
undistort the pixel to a normalized direction `(nx, ny)`, form the
camera-frame point `(z·nx, z·ny, z)`, subtract the translation vector,
multiply by the transpose of the rotation matrix, and return the x and y
components.  Stated with Mathlib's `Matrix.transpose` and `Matrix.mulVec`,
to be compared against the source translation `pixel2world`. -/
def pixelToWorld_spec (cm : CameraModel) (p : ℚ × ℚ) (z : ℚ) : ℚ × ℚ :=
  let n := cm.undistort p
  let c : Fin 3 → ℚ := ![z * n.1, z * n.2, z]
  let w := cm.R.transpose.mulVec (c - cm.T)
  (w 0, w 1)

/-- Modelled from the spec: `worldToPixel`, the forward projection used in the
round-trip law of spec section 8, is not present under src/ (only
`pixel2world` is).  Following the spec's words — extrinsics map world→camera
(section 3), the depth `z` is the camera-frame z of the supplied plane
(section 4.1) — it maps the world point to the camera frame `c = R·w + T`,
perspective-divides by the known depth, and applies the forward
intrinsic-plus-distortion lens map. -/
def worldToPixel (cm : CameraModel) (w : Fin 3 → ℚ) (z : ℚ) : ℚ × ℚ :=
  let c := cm.R.mulVec w + cm.T
  cm.distort (c 0 / z, c 1 / z)

/- ## Calibration world-coordinate assignment (C3) -/

/-- World coordinate assigned to the i-th detected corner by
`Calibration::getChessboardViews` (views_chessbd.cpp lines 71-75):
`x = i % cols`, `y = -i / cols`, `z = 0`, with C++ `int` division and
remainder (truncation toward zero, `Int.tdiv`/`Int.tmod`). -/
def chessboardWorldLoc (cols : ℕ) (i : ℕ) : ℤ × ℤ × ℤ :=
  ((i : ℤ).tmod cols, (-(i : ℤ)).tdiv cols, 0)

/-- World coordinate assigned to the i-th detected corner by
`grab_calib_grid` (dot_coords.cpp lines 99-101): row `row0 + i` of the object
matrix receives `(i / cols, i % cols, 0)` with C `int` division. -/
def grabCalibWorldLoc (cols : ℕ) (i : ℕ) : ℤ × ℤ × ℤ :=
  ((i : ℤ).tdiv cols, (i : ℤ).tmod cols, 0)

/- ## Calibration-file loading (C5) -/

/-- The errno value `EBADF` used by the sources for a failed `cvLoad`. -/
def EBADF : ℤ := 9

/-- The OpenCV status `CV_OK`. -/
def CV_OK : ℤ := 0

/-- Embedding of the calibration-load prefix of `main`
(skeleton.cpp lines 201-220).  Each `cvLoad` result is an `Option`
(`none` = the file failed to load, i.e. `cvLoad` returned `NULL`).
The fourth check, tied to the translation load, tests `rot == NULL`
again — exactly as skeleton.cpp line 218 does — so a failed translation
load is never detected.  `Except.error` is the early `return -EBADF`,
`Except.ok` is falling through into the rest of startup. -/
def skeletonLoadModel (intrinsic : Option (Matrix (Fin 3) (Fin 3) ℚ))
    (distortion : Option (Fin 4 → ℚ))
    (rot : Option (Matrix (Fin 3) (Fin 3) ℚ))
    (trans : Option (Fin 3 → ℚ)) : Except ℤ Unit :=
  if intrinsic.isNone then Except.error (-EBADF)
  else if distortion.isNone then Except.error (-EBADF)
  else if rot.isNone then Except.error (-EBADF)
  else if rot.isNone then Except.error (-EBADF)
  else Except.ok ()

/-- Embedding of `setup_world_frame` (dot_coords.cpp lines 11-36), which
checks each of the four loaded matrices in turn and returns `-EBADF` on the
first failure, `CV_OK` otherwise.  The `cvCreateMat` scratch allocations
(lines 26-33, `-ENOMEM` on failure) are independent of the claim and are
modelled as always succeeding. -/
def setup_world_frame (A : Option (Matrix (Fin 3) (Fin 3) ℚ))
    (k : Option (Fin 4 → ℚ))
    (R : Option (Matrix (Fin 3) (Fin 3) ℚ))
    (T : Option (Fin 3 → ℚ)) : ℤ :=
  if A.isNone then -EBADF
  else if k.isNone then -EBADF
  else if R.isNone then -EBADF
  else if T.isNone then -EBADF
  else CV_OK

/- ## Kalman motion predictor (xtal_ball.cpp) -/

/-- The gravity constant `GRAVITY = 9.8f` (xtal_ball.cpp line 3). -/
def GRAVITY : ℚ := 49 / 5

/-- Transition matrix `A_k` built by `prediction` (xtal_ball.cpp lines 10-13):
constant velocity in both axes over a step `dt`. -/
def A_k (dt : ℚ) : Matrix (Fin 4) (Fin 4) ℚ :=
  !![1, 0, dt, 0;
     0, 1, 0, dt;
     0, 0, 1, 0;
     0, 0, 0, 1]

/-- Control matrix `B_k` built by `prediction` (xtal_ball.cpp lines 15-18):
the gravity contribution `(0, ½·g·dt², 0, g·dt)` to be multiplied by the
scalar control input. -/
def B_k (dt : ℚ) : Fin 4 → ℚ :=
  ![0, (1 / 2) * GRAVITY * dt * dt, 0, GRAVITY * dt]

/-- The `CvKalman` fields that the state-estimation math reads: state vector
(4-dimensional: x, y, vx, vy), its covariance, the fixed process/measurement
noise covariances and the measurement matrix (2 measured coordinates). -/
structure KalmanFilter where
  statePost : Fin 4 → ℚ
  errorCovPost : Matrix (Fin 4) (Fin 4) ℚ
  processNoiseCov : Matrix (Fin 4) (Fin 4) ℚ
  measurementNoiseCov : Matrix (Fin 2) (Fin 2) ℚ
  measurementMatrix : Matrix (Fin 2) (Fin 4) ℚ

/-- Embedding of `cvKalmanPredict(kal, u)` with transition matrix `A`,
control matrix `B` (4×1) and scalar control input `u`:
prior state `x' = A·x + B·u` and prior covariance `P' = A·P·Aᵀ + Q`. -/
def cvKalmanPredict (kal : KalmanFilter) (A : Matrix (Fin 4) (Fin 4) ℚ)
    (B : Fin 4 → ℚ) (u : ℚ) : (Fin 4 → ℚ) × Matrix (Fin 4) (Fin 4) ℚ :=
  (A.mulVec kal.statePost + u • B,
   A * kal.errorCovPost * A.transpose + kal.processNoiseCov)

/-- Determinant of a 2×2 matrix, written out as the small-matrix inversion
routine computes it. -/
def det2 (S : Matrix (Fin 2) (Fin 2) ℚ) : ℚ :=
  S 0 0 * S 1 1 - S 0 1 * S 1 0

/-- Inverse of a 2×2 matrix (adjugate over determinant), the innovation
covariance inversion inside `cvKalmanCorrect`. -/
def inv2 (S : Matrix (Fin 2) (Fin 2) ℚ) : Matrix (Fin 2) (Fin 2) ℚ :=
  (det2 S)⁻¹ • !![S 1 1, -(S 0 1); -(S 1 0), S 0 0]

/-- Embedding of `cvKalmanCorrect(kal, z)` applied to a predicted
(state, covariance) pair: innovation covariance `S = H·P'·Hᵀ + R`, gain
`K = P'·Hᵀ·S⁻¹`, posterior state `x = x' + K·(z − H·x')` and posterior
covariance `P = P' − K·H·P'`. -/
def cvKalmanCorrect (kal : KalmanFilter)
    (prior : (Fin 4 → ℚ) × Matrix (Fin 4) (Fin 4) ℚ) (z : Fin 2 → ℚ) :
    (Fin 4 → ℚ) × Matrix (Fin 4) (Fin 4) ℚ :=
  let H := kal.measurementMatrix
  let S := H * prior.2 * H.transpose + kal.measurementNoiseCov
  let K := prior.2 * H.transpose * inv2 S
  (prior.1 + K.mulVec (z - H.mulVec prior.1),
   prior.2 - K * H * prior.2)

/-- Embedding of `prediction` (xtal_ball.cpp lines 5-32): build `A_k` and
`B_k` for the step `dt`, zero the control input (`cvZero(u)`, line 21), run
`cvKalmanPredict` and then unconditionally run `cvKalmanCorrect` with the
supplied measurement `z`.  Returns the posterior (state, covariance). -/
def prediction (kal : KalmanFilter) (dt : ℚ) (z : Fin 2 → ℚ) :
    (Fin 4 → ℚ) × Matrix (Fin 4) (Fin 4) ℚ :=
  cvKalmanCorrect kal (cvKalmanPredict kal (A_k dt) (B_k dt) 0) z

/-- The filter configuration produced by `setup_kalman` (xtal_ball.cpp lines
34-73) for a filter with no caller-supplied `x0[i]` or `P0[i]`: measurement
matrix ← identity (`cvSetIdentity(..., 1)` on the 2×4 matrix), process noise
← `0.1·I`, measurement noise ← `1e-5·I`, state ← 0 (`cvZero`), covariance ←
`100·I` ("don't trust initial guess"). -/
def setupKalmanDefault : KalmanFilter where
  statePost := fun _ => 0
  errorCovPost := (100 : ℚ) • 1
  processNoiseCov := (1 / 10 : ℚ) • 1
  measurementNoiseCov := (1 / 100000 : ℚ) • 1
  measurementMatrix := !![1, 0, 0, 0; 0, 1, 0, 0]

/- ## setup_kalman initial-covariance copy, word-level memory model (C8) -/

/-- Word-addressed memory of 32-bit cells.  A cell holds either a float value
or a pointer; both are idealised as rationals, a pointer being stored as its
word address cast to `ℚ` (the null pointer is `0`).  This makes the type
confusion in `setup_kalman`'s `memcpy` source address expressible. -/
def Mem : Type := ℕ → ℚ

/-- Embedding of `memcpy(dst, src, n*sizeof(float))` on word-addressed
memory: the `n` cells starting at `dst` receive the `n` cells starting at
`src`; everything else is unchanged. -/
def memcpyWords (dst src n : ℕ) (mem : Mem) : Mem :=
  fun a => if dst ≤ a ∧ a < dst + n then mem (src + (a - dst)) else mem a

/-- Embedding of `cvZero` on a matrix of `len` cells stored at `base`. -/
def cvZeroAt (base len : ℕ) (mem : Mem) : Mem :=
  fun a => if base ≤ a ∧ a < base + len then 0 else mem a

/-- Embedding of `cvSetIdentity(mat, cvRealScalar(c))` on a row-major
`dim × dim` matrix stored at `base`: `c` on the diagonal, `0` elsewhere. -/
def cvSetIdentityAt (base dim : ℕ) (c : ℚ) (mem : Mem) : Mem :=
  fun a =>
    if base ≤ a ∧ a < base + dim * dim then
      (if (a - base) / dim = (a - base) % dim then c else 0)
    else mem a

/-- Address denoted by a pointer-valued memory cell. -/
def addrOf (q : ℚ) : ℕ := q.num.toNat

/-- Layout of one `CvKalman` filter's caller-visible buffers: state dimension
`DP`, the word address of `state_post->data.fl` and of
`error_cov_post->data.fl`. -/
structure KalFilterLayout where
  dp : ℕ
  statePostAddr : ℕ
  errCovPostAddr : ℕ

/-- Embedding of the initial-state and initial-covariance section of
`setup_kalman`'s per-filter loop body (xtal_ball.cpp lines 56-71) for filter
`i`.  `x0` and `P0` are the base addresses of the caller's pointer arrays
(`none` = the array argument itself is NULL); `mem (x0 + i)` is the pointer
`x0[i]`.  The `cvSetIdentity` calls for the measurement matrix and the two
noise covariances (lines 48-54) write buffers disjoint from the claim and are
omitted.  Note the covariance `memcpy` (line 66) copies from the pointer
array base `P0` itself, not from the pointed-to matrix `P0[i]`. -/
def setup_kalman_filter (L : KalFilterLayout) (x0 P0 : Option ℕ) (i : ℕ)
    (mem : Mem) : Mem :=
  let mem1 :=
    match x0 with
    | some xa =>
      if mem (xa + i) ≠ 0 then
        memcpyWords L.statePostAddr (addrOf (mem (xa + i))) L.dp mem
      else cvZeroAt L.statePostAddr L.dp mem
    | none => cvZeroAt L.statePostAddr L.dp mem
  match P0 with
  | some pa =>
    if mem1 (pa + i) ≠ 0 then
      memcpyWords L.errCovPostAddr pa (L.dp * L.dp) mem1
    else cvSetIdentityAt L.errCovPostAddr L.dp 100 mem1
  | none => cvSetIdentityAt L.errCovPostAddr L.dp 100 mem1

/-- The per-filter initialization the spec states (spec sections 4.5 and 9,
and the claim): identical to `setup_kalman_filter` except that the initial
covariance is copied from the matrix `P0[i]` points to, `addrOf (mem (pa + i))`,
rather than from the pointer array base. -/
def setup_kalman_filter_spec (L : KalFilterLayout) (x0 P0 : Option ℕ) (i : ℕ)
    (mem : Mem) : Mem :=
  let mem1 :=
    match x0 with
    | some xa =>
      if mem (xa + i) ≠ 0 then
        memcpyWords L.statePostAddr (addrOf (mem (xa + i))) L.dp mem
      else cvZeroAt L.statePostAddr L.dp mem
    | none => cvZeroAt L.statePostAddr L.dp mem
  match P0 with
  | some pa =>
    if mem1 (pa + i) ≠ 0 then
      memcpyWords L.errCovPostAddr (addrOf (mem1 (pa + i))) (L.dp * L.dp) mem1
    else cvSetIdentityAt L.errCovPostAddr L.dp 100 mem1
  | none => cvSetIdentityAt L.errCovPostAddr L.dp 100 mem1

/- ## Chessboard view collection (views_chessbd.cpp) -/

/-- The key code `'i'` (ignore the just-collected view). -/
def KEY_I : ℤ := 105

/-- The key code `'q'` (quit the grabbing process). -/
def KEY_Q : ℤ := 113

/-- Embedding of the `while(good_imgs < n)` loop of
`Calibration::getChessboardViews` (views_chessbd.cpp lines 78-109).
The camera is a finite list of frames, each reduced to whether
`findChessboardCorners` succeeds on it (the corner data itself is abstract;
a stored view is recorded by the index `t` of the frame it came from, so one
entry of the returned list stands for the pair pushed onto
`views.pixel`/`views.world`).  `keys t` is what the single `waitKey` of
iteration `t` returns.  Per iteration: the loop guard is tested, a frame is
grabbed (`break` when the source is exhausted), a found board is refined and
pushed and `good_imgs` is incremented; then, interactively, key `'i'`
decrements `good_imgs` (the pushed view is not removed) and key `'q'`
returns, while non-interactively only `'q'` is honoured.  Returns the final
`(good_imgs, stored views)`. -/
def getChessboardViewsLoop (prompt : Bool) (n : ℤ) (keys : ℕ → ℤ) :
    List Bool → ℕ → ℤ → List ℕ → ℤ × List ℕ
  | frames, t, g, vs =>
    if n ≤ g then (g, vs)
    else
      match frames with
      | [] => (g, vs)
      | found :: rest =>
        if found then
          let vs1 := vs ++ [t]
          let g1 := g + 1
          if prompt then
            if keys t = KEY_I then getChessboardViewsLoop prompt n keys rest (t + 1) (g1 - 1) vs1
            else if keys t = KEY_Q then (g1, vs1)
            else getChessboardViewsLoop prompt n keys rest (t + 1) g1 vs1
          else if keys t = KEY_Q then (g1, vs1)
          else getChessboardViewsLoop prompt n keys rest (t + 1) g1 vs1
        else if keys t = KEY_Q then (g, vs)
        else getChessboardViewsLoop prompt n keys rest (t + 1) g vs

/-- Embedding of `Calibration::getChessboardViews` (views_chessbd.cpp lines
48-114): runs the collection loop from an empty view list and returns the
final `good_imgs` count together with the stored views. -/
def getChessboardViews (frames : List Bool) (n : ℤ) (prompt : Bool)
    (keys : ℕ → ℤ) : ℤ × List ℕ :=
  getChessboardViewsLoop prompt n keys frames 0 0 []

/-- The keyboard input of the C7 run: `'i'` at the first prompt, a neutral
key afterwards. -/
def keysIgnoreFirst : ℕ → ℤ :=
  fun t => if t = 0 then KEY_I else 0

/- ## Tracking-loop ROI dispatch (skeleton.cpp) -/

/-- The per-ROI window state of skeleton.cpp (`TrackingWindow` of
fcdynamic.h as the five source files use it): hardware ROI slot, ROI
size/offset, full-image size, and the software blob box. -/
structure TrackingWindow where
  roi : ℤ
  roi_w : ℤ
  roi_h : ℤ
  roi_xoff : ℤ
  roi_yoff : ℤ
  img_w : ℤ
  img_h : ℤ
  blob_xmin : ℤ
  blob_ymin : ℤ
  blob_xmax : ℤ
  blob_ymax : ℤ
  deriving DecidableEq

/-- The all-zero window left in every unconfigured slot by
`memset(&wins, 0, sizeof(TrackingSequence))` (skeleton.cpp line 273). -/
def zeroWindow : TrackingWindow :=
  ⟨0, 0, 0, 0, 0, 0, 0, 0, 0, 0, 0⟩

/-- `MAX_ROI`: the hardware exposes eight ROI slots `ROI_0 … ROI_7`
(TDahMe3Fc.cpp lines 39 and 122), so the per-sequence window array has eight
entries. -/
def MAX_ROI : ℕ := 8

/-- `SEQ_LEN`: skeleton.cpp configures two tracking windows
(skeleton.cpp lines 36-37). -/
def SEQ_LEN : ℕ := 2

/-- Decoding of the ROI id from a frame tag: `cur_roi = cur_roi >> 16`
(skeleton.cpp line 329, TDahMe3Fc.cpp line 167) — the high 16 bits of the
tag word. -/
def decodeRoiTag (tag : ℕ) : ℕ := tag >>> 16

/-- The window array after `memset` plus `set_initial_positions`
(skeleton.cpp lines 270-274): slots 0 and 1 hold the two configured windows,
every other slot keeps the memset zero window. -/
def initialWindows (w0 w1 : TrackingWindow) : Fin MAX_ROI → TrackingWindow :=
  fun i => if i.val = 0 then w0 else if i.val = 1 then w1 else zeroWindow

/-- Embedding of the dispatch `cur = &(wins.windows[cur_roi])` (skeleton.cpp
lines 329-330).  The source indexes the fixed-size window array with the
decoded id without any range check; the total model therefore returns the
selected window for every id inside the array, and `none` for an id beyond
the array — an access the C program performs out of bounds (undefined
behaviour), not a detected error. -/
def skeletonSelectWindow (wins : Fin MAX_ROI → TrackingWindow) (tag : ℕ) :
    Option TrackingWindow :=
  if h : decodeRoiTag tag < MAX_ROI then some (wins ⟨decodeRoiTag tag, h⟩)
  else none

/-- Identity camera model (no lens distortion, identity rotation, zero
translation), a concrete valid model for witnesses. -/
def cmIdentity : CameraModel where
  undistort := id
  distort := id
  R := 1
  T := fun _ => 0

/-- The filter layout of the C8 evaluation: state dimension `DP = 2`,
`state_post` data at words 0-1, `error_cov_post` data at words 4-7. -/
def kalLayoutEx : KalFilterLayout where
  dp := 2
  statePostAddr := 0
  errCovPostAddr := 4

/-- The heap of the C8 evaluation: the caller's `x0` pointer array lives at
word 50 and points to the state guess `(5, 6)` at words 60-61; the `P0`
pointer array lives at word 100 and points to the covariance matrix
`(7, 7, 7, 7)` at words 200-203.  Every other cell is zero. -/
def memEx : Mem := fun a =>
  if a = 50 then 60
  else if a = 60 then 5
  else if a = 61 then 6
  else if a = 100 then 200
  else if 200 ≤ a ∧ a < 204 then 7
  else 0

/- ## Theorems -/

/-- Helper: the entrywise transpose-multiply of `cvGEMM` with `CV_GEMM_A_T`
agrees with Mathlib's `Matrix.transpose` followed by `Matrix.mulVec`. -/
lemma cvGEMM_AT_eq_transpose_mulVec (A : Matrix (Fin 3) (Fin 3) ℚ)
    (v : Fin 3 → ℚ) : cvGEMM_AT A v = A.transpose.mulVec v := by
  funext i
  simp [cvGEMM_AT, Matrix.mulVec, Matrix.dotProduct, Matrix.transpose_apply,
    Fin.sum_univ_three]

/-- Helper: `cvSub` is pointwise subtraction. -/
lemma cvSub3_eq_sub (a b : Fin 3 → ℚ) : cvSub3 a b = a - b := rfl

/-- Claim C1: for every pixel `p` and depth `z`, `pixel2world p z` equals the
composition stated by the spec — undistort `p` to a normalized direction
`(nx, ny)`, form the camera-frame point `(z·nx, z·ny, z)`, subtract the
translation vector, multiply by the transpose of the rotation matrix, and
return the x and y components of the result. -/
theorem pixel2world_eq_spec_composition (cm : CameraModel) (p : ℚ × ℚ)
    (z : ℚ) : pixel2world cm p z = pixelToWorld_spec cm p z := by
  unfold pixel2world pixelToWorld_spec pixel2worldVec
  rw [cvGEMM_AT_eq_transpose_mulVec, cvSub3_eq_sub]

/-- Counterexample to claim C3: `grab_calib_grid` assigns the second corner
of a 3-column grid the world coordinate `(0, 1, 0)`, not the
`(i mod cols, -(i div cols), 0) = (1, 0, 0)` the claim states for every
collection routine. -/
theorem grabCalibWorldLoc_refutes_claim :
    grabCalibWorldLoc 3 1 = (0, 1, 0) ∧
      grabCalibWorldLoc 3 1 ≠ (((1 : ℤ) % 3), -((1 : ℤ) / 3), 0) := by
  exact ⟨by decide, by decide⟩

/-- Claim C3 (amended): `Calibration::getChessboardViews` assigns the i-th
corner the world coordinate `(i mod cols, -(i div cols), 0)` exactly as the
claim states, but `grab_calib_grid` assigns `(i div cols, i mod cols, 0)` —
a transposed, unnegated frame. -/
theorem calibWorldLoc_per_routine (cols i : ℕ) :
    chessboardWorldLoc cols i = ((i : ℤ) % cols, -((i : ℤ) / cols), 0) ∧
      grabCalibWorldLoc cols i = ((i : ℤ) / cols, (i : ℤ) % cols, 0) := by
  have hi : (0 : ℤ) ≤ (i : ℤ) := Int.ofNat_nonneg i
  have hc : (0 : ℤ) ≤ (cols : ℤ) := Int.ofNat_nonneg cols
  constructor
  · unfold chessboardWorldLoc
    rw [Int.tmod_eq_emod hi hc, Int.neg_tdiv, Int.tdiv_eq_ediv hi hc]
  · unfold grabCalibWorldLoc
    rw [Int.tmod_eq_emod hi hc, Int.tdiv_eq_ediv hi hc]

/-- Claim C5, evaluated at the failing input: with the intrinsic, distortion
and rotation matrices loaded but the translation load failing (`cvLoad`
returning NULL), skeleton.cpp's startup proceeds (`Except.ok`) because line
218 re-checks `rot == NULL` instead of `trans == NULL`, while
`setup_world_frame` on the same input returns `-EBADF` as the claim
requires of every load path. -/
theorem skeletonLoadModel_misses_failed_translation :
    skeletonLoadModel (some 1) (some ![0, 0, 0, 0]) (some 1) none =
      Except.ok () ∧
      setup_world_frame (some 1) (some ![0, 0, 0, 0]) (some 1) none =
        -EBADF := by
  exact ⟨rfl, rfl⟩

/-- Claim C9: with a rotation matrix satisfying `R·Rᵀ = 1`, a positive depth
and a forward lens map that inverts the undistortion at `p`, projecting the
world point produced by `pixel2world` back to the image at the same depth
returns exactly the original pixel (stronger than the claimed sub-pixel
tolerance). -/
theorem worldToPixel_pixel2world_roundtrip (cm : CameraModel) (p : ℚ × ℚ)
    (z : ℚ) (hz : 0 < z) (hR : cm.R * cm.R.transpose = 1)
    (hd : cm.distort (cm.undistort p) = p) :
    worldToPixel cm (pixel2worldVec cm p z) z = p := by
  unfold worldToPixel pixel2worldVec
  rw [cvGEMM_AT_eq_transpose_mulVec, cvSub3_eq_sub,
    Matrix.mulVec_mulVec, hR, Matrix.one_mulVec, sub_add_cancel]
  simp only [Matrix.cons_val_zero, Matrix.cons_val_one, Matrix.head_cons]
  rw [mul_div_cancel_left₀ _ hz.ne', mul_div_cancel_left₀ _ hz.ne',
    Prod.mk.eta, hd]

/-- Witness for claim C9 at the identity camera model, pixel `(3, 4)` and
depth `1`. -/
theorem worldToPixel_pixel2world_roundtrip_witness :
    (0 : ℚ) < 1 ∧ cmIdentity.R * cmIdentity.R.transpose = 1 ∧
      worldToPixel cmIdentity (pixel2worldVec cmIdentity (3, 4) 1) 1 =
        (3, 4) :=
  ⟨by norm_num, by simp [cmIdentity],
    worldToPixel_pixel2world_roundtrip cmIdentity (3, 4) 1 (by norm_num)
      (by simp [cmIdentity]) rfl⟩

/-- Counterexample to claim C4: the frame tag `5 · 2¹⁶` decodes to ROI id 5,
outside the configured sequence of 2 windows, yet the tracking iteration
selects (and goes on to use) the unconfigured zero window slot instead of
terminating with a fatal configuration error. -/
theorem skeletonSelectWindow_oob_id_selects_window :
    SEQ_LEN ≤ decodeRoiTag (5 * 2 ^ 16) ∧
      skeletonSelectWindow (initialWindows zeroWindow zeroWindow)
        (5 * 2 ^ 16) = some zeroWindow := by
  exact ⟨by decide, by decide⟩

/-- Claim C4 (amended): the decoded ROI id indexes the window array with no
range check at all; every tag whose decoded id lies in
`[SEQ_LEN, MAX_ROI)` selects the unconfigured memset-zero window and the
iteration proceeds with it (ids at or beyond `MAX_ROI` index outside the
array altogether); the loop never terminates with a configuration error on
an out-of-range id. -/
theorem skeletonSelectWindow_unchecked (w0 w1 : TrackingWindow) (tag : ℕ)
    (h1 : SEQ_LEN ≤ decodeRoiTag tag) (h2 : decodeRoiTag tag < MAX_ROI) :
    skeletonSelectWindow (initialWindows w0 w1) tag = some zeroWindow := by
  unfold skeletonSelectWindow
  rw [dif_pos h2]
  unfold initialWindows
  have h0 : decodeRoiTag tag ≠ 0 := by unfold SEQ_LEN at h1; omega
  have h1' : decodeRoiTag tag ≠ 1 := by unfold SEQ_LEN at h1; omega
  simp [h0, h1']

/-- Witness for the amended claim C4 at the tag `3 · 2¹⁶`. -/
theorem skeletonSelectWindow_unchecked_witness :
    skeletonSelectWindow (initialWindows zeroWindow zeroWindow) (3 * 2 ^ 16) =
      some zeroWindow :=
  skeletonSelectWindow_unchecked zeroWindow zeroWindow (3 * 2 ^ 16)
    (by decide) (by decide)

/-- Helper: the non-interactive collection loop, when the quit key is never
pressed, returns `min n (already-collected + detections remaining)`. -/
lemma getChessboardViewsLoop_count (n : ℤ) (keys : ℕ → ℤ)
    (hq : ∀ t, keys t ≠ KEY_Q) (frames : List Bool) :
    ∀ (t : ℕ) (g : ℤ), g ≤ n → ∀ (vs : List ℕ),
      (getChessboardViewsLoop false n keys frames t g vs).1 =
        min n (g + (frames.count true : ℤ)) := by
  induction frames with
  | nil =>
    intro t g hg vs
    unfold getChessboardViewsLoop
    by_cases h : n ≤ g
    · rw [if_pos h]; simp; omega
    · rw [if_neg h]; simp; omega
  | cons found rest ih =>
    intro t g hg vs
    unfold getChessboardViewsLoop
    by_cases h : n ≤ g
    · rw [if_pos h]; simp; omega
    · rw [if_neg h]
      cases found with
      | true =>
        simp only [if_true, Bool.false_eq_true, if_false, if_neg (hq t)]
        rw [ih (t + 1) (g + 1) (by omega) (vs ++ [t])]
        simp [List.count_cons]
        omega
      | false =>
        simp only [Bool.false_eq_true, if_false, if_neg (hq t)]
        rw [ih (t + 1) g hg vs]
        simp [List.count_cons]

/-- Claim C6: for every finite frame source and nonnegative requested count,
the non-interactive collection (with no quit request) terminates — it is a
total function structurally recursive on the frame list — and returns
exactly `min n (number of frames with a detectable checkerboard)`: it stops
at `n` views or at source exhaustion, and a source with only `k < n` good
boards yields `k`, not an error and not a hang. -/
theorem getChessboardViews_returns_collected (frames : List Bool) (n : ℤ)
    (keys : ℕ → ℤ) (hn : 0 ≤ n) (hq : ∀ t, keys t ≠ KEY_Q) :
    (getChessboardViews frames n false keys).1 =
      min n (frames.count true : ℤ) := by
  unfold getChessboardViews
  rw [getChessboardViewsLoop_count n keys hq frames 0 0 hn []]
  simp

/-- Witness for claim C6: requesting 5 views from a source showing only 2
valid checkerboards returns exactly 2. -/
theorem getChessboardViews_returns_collected_witness :
    (getChessboardViews [true, false, true] 5 false (fun _ => 0)).1 = 2 := by
  rw [getChessboardViews_returns_collected [true, false, true] 5 (fun _ => 0)
    (by norm_num) (fun t => show (0 : ℤ) ≠ KEY_Q by decide)]
  decide

/-- Claim C7, evaluated at the failing input: two detected boards with the
first one discarded by the `'i'` key and a target of one view.  The function
returns a good-view count of 1, but both pushed views — including the
discarded frame-0 view — remain in the stored correspondence list, so the
stored pairs (2) exceed the returned count (1) and the discarded view stays
in the data handed to calibration. -/
theorem getChessboardViews_retains_ignored_view :
    getChessboardViews [true, true] 1 true keysIgnoreFirst = (1, [0, 1]) := by
  decide

/-- Helper: the prior state of the predict step on the default-initialized
filter (zero state) with `dt = 1` is the zero vector — the control input is
zeroed, so the gravity control matrix contributes nothing. -/
lemma predictionPriorDefault_eq :
    (cvKalmanPredict setupKalmanDefault (A_k 1) (B_k 1) 0).1 = ![0, 0, 0, 0] := by
  funext i
  fin_cases i <;>
    norm_num [cvKalmanPredict, setupKalmanDefault, A_k, B_k, GRAVITY,
      Matrix.mulVec, Matrix.dotProduct, Fin.sum_univ_four]

/-- Helper: the first component of the corrected state on the
default-initialized filter with measurement `(1, 0)`. -/
lemma predictionDefault_z10_comp0 :
    (prediction setupKalmanDefault 1 ![1, 0]).1 0 = 20010000 / 20010001 := by
  dsimp only [prediction, cvKalmanCorrect, cvKalmanPredict, setupKalmanDefault]
  simp only [Matrix.mulVec, Matrix.dotProduct, Matrix.mul_apply,
    Matrix.transpose_apply, Matrix.smul_apply, Matrix.one_apply,
    Matrix.add_apply, Matrix.sub_apply, Pi.add_apply, Pi.sub_apply,
    Pi.smul_apply, smul_eq_mul, Fin.sum_univ_four, Fin.sum_univ_two,
    A_k, B_k, GRAVITY, inv2, det2, Matrix.cons_val_zero, Matrix.cons_val_one,
    Matrix.cons_val_two, Matrix.cons_val_three, Matrix.head_cons,
    Matrix.tail_cons, Matrix.of_apply]
  simp +decide only []
  norm_num

/-- Helper: the first component of the corrected state on the
default-initialized filter with measurement `(0, 0)`. -/
lemma predictionDefault_z00_comp0 :
    (prediction setupKalmanDefault 1 ![0, 0]).1 0 = 0 := by
  dsimp only [prediction, cvKalmanCorrect, cvKalmanPredict, setupKalmanDefault]
  simp only [Matrix.mulVec, Matrix.dotProduct, Matrix.mul_apply,
    Matrix.transpose_apply, Matrix.smul_apply, Matrix.one_apply,
    Matrix.add_apply, Matrix.sub_apply, Pi.add_apply, Pi.sub_apply,
    Pi.smul_apply, smul_eq_mul, Fin.sum_univ_four, Fin.sum_univ_two,
    A_k, B_k, GRAVITY, inv2, det2, Matrix.cons_val_zero, Matrix.cons_val_one,
    Matrix.cons_val_two, Matrix.cons_val_three, Matrix.head_cons,
    Matrix.tail_cons, Matrix.of_apply]
  simp +decide only []
  norm_num

/-- Claim C2, evaluated at the failing input: on the default-initialized
filter (state `(0, 0, 0, 0)`) with `dt = 1`, the predict step of
`prediction` yields the zero prior — vertical position 0 and vertical
velocity 0 — because `cvZero(u)` nullifies the gravity control matrix
`B_k`; the claimed closed form `y0 + v0·dt + ½·g·dt²` instead gives
`49/10 ≠ 0`. -/
theorem prediction_predict_step_has_no_gravity :
    (cvKalmanPredict setupKalmanDefault (A_k 1) (B_k 1) 0).1 = ![0, 0, 0, 0] ∧
      (0 : ℚ) + 0 * 1 + (1 / 2) * GRAVITY * 1 * 1 = 49 / 10 ∧
      ((49 : ℚ) / 10) ≠ 0 :=
  ⟨predictionPriorDefault_eq, by norm_num [GRAVITY], by norm_num⟩

/-- Counterexample to claim C10: on the default-initialized filter the
result of `prediction` differs from the predict-only prior — the predictor's
sole entry point never yields the transition-model-only estimate, because it
unconditionally applies the correction step. -/
theorem prediction_result_differs_from_predict_only :
    (prediction setupKalmanDefault 1 ![1, 0]).1 ≠
      (cvKalmanPredict setupKalmanDefault (A_k 1) (B_k 1) 0).1 := by
  intro h
  have h0 := congrFun h 0
  rw [predictionDefault_z10_comp0, predictionPriorDefault_eq] at h0
  norm_num at h0

/-- Claim C10 (amended): the predictor's single entry point `prediction`
always performs the predict step followed by a correction with the supplied
measurement; its output depends on that measurement (shown at the
default-initialized filter), so a frame with no measurement cannot be
carried forward through this interface in a predict-only mode. -/
theorem prediction_always_corrects :
    (∀ kal dt z, prediction kal dt z =
        cvKalmanCorrect kal (cvKalmanPredict kal (A_k dt) (B_k dt) 0) z) ∧
      (prediction setupKalmanDefault 1 ![1, 0]).1 ≠
        (prediction setupKalmanDefault 1 ![0, 0]).1 := by
  refine ⟨fun kal dt z => rfl, fun h => ?_⟩
  have h0 := congrFun h 0
  rw [predictionDefault_z10_comp0, predictionDefault_z00_comp0] at h0
  norm_num at h0

/-- Claim C8, evaluated at the failing input: one filter with `DP = 2`, a
non-null `x0` whose entry points to the state guess `(5, 6)` and a non-null
`P0` whose entry points to the covariance `(7, 7, 7, 7)`.  The source's
initialization fills `state_post` correctly with `(5, 6)` but fills
`error_cov_post` from the pointer array `P0` itself — its first word is the
pointer value 200 and the rest is unrelated memory — whereas the per-filter
initialization the claim states (copying from `P0[i]`) yields the matrix of
sevens. -/
theorem setup_kalman_covariance_copied_from_wrong_source :
    setup_kalman_filter kalLayoutEx (some 50) (some 100) 0 memEx 0 = 5 ∧
      setup_kalman_filter kalLayoutEx (some 50) (some 100) 0 memEx 1 = 6 ∧
      setup_kalman_filter kalLayoutEx (some 50) (some 100) 0 memEx 4 = 200 ∧
      setup_kalman_filter kalLayoutEx (some 50) (some 100) 0 memEx 5 = 0 ∧
      setup_kalman_filter_spec kalLayoutEx (some 50) (some 100) 0 memEx 4 = 7 ∧
      setup_kalman_filter_spec kalLayoutEx (some 50) (some 100) 0 memEx 7 = 7 := by
  refine ⟨?_, ?_, ?_, ?_, ?_, ?_⟩ <;> decide
